import Mathlib

namespace AiFbPost

/-- A post record, as in `streamlit_app.py`'s `Post` pydantic model.
Timestamps are modelled as natural numbers (the code stores ISO strings
produced from a monotone clock; only their values and ordering matter here). -/
structure Post where
  id : Nat
  title : String
  content : String
  status : String := "draft"
  scheduled_time : Option String := none
  created_time : Nat
  updated_time : Nat
  facebook_post_id : Option String := none
  engagement_stats : List (String × Nat) := []
deriving DecidableEq, Repr

/-- `PostManager.get_next_id`: 1 on the empty store, else `max(ids) + 1`. -/
def get_next_id (posts : List Post) : Nat :=
  match posts with
  | [] => 1
  | _ => (posts.map Post.id).foldl Nat.max 0 + 1

/-- `PostManager.create_post`: allocate the next id, stamp both timestamps
with the current time, append to the store.  Returns the new post and the
saved store. -/
def create_post (posts : List Post) (title content status : String)
    (scheduled_time : Option String) (now : Nat) : Post × List Post :=
  let post : Post :=
    { id := get_next_id posts, title := title, content := content,
      status := status, scheduled_time := scheduled_time,
      created_time := now, updated_time := now }
  (post, posts ++ [post])

/-- The partial fields an update may carry.  This is the shape of
`PostUpdateRequest` in `app/main.py`; the Streamlit `update_post(**updates)`
is only ever called with a subset of these keyword arguments. -/
structure PostUpdate where
  title : Option String := none
  content : Option String := none
  status : Option String := none
  scheduled_time : Option String := none
deriving DecidableEq, Repr

/-- Apply the non-null fields of an update to one post and bump
`updated_time`, as the per-field `if ... is not None` assignments do. -/
def applyUpdate (p : Post) (u : PostUpdate) (now : Nat) : Post :=
  { p with
    title := u.title.getD p.title,
    content := u.content.getD p.content,
    status := u.status.getD p.status,
    scheduled_time := match u.scheduled_time with
      | some t => some t
      | none => p.scheduled_time,
    updated_time := now }

/-- `PostManager.update_post`: walk the list, update the first post with the
given id and save; return `false` (store untouched) when no post matches. -/
def update_post (posts : List Post) (pid : Nat) (u : PostUpdate) (now : Nat) :
    Bool × List Post :=
  match posts with
  | [] => (false, [])
  | p :: rest =>
    if p.id = pid then
      (true, applyUpdate p u now :: rest)
    else
      let r := update_post rest pid u now
      (r.1, p :: r.2)

/-- `PostManager.delete_post`: filter out every post with the given id; the
operation reports success exactly when the store shrank. -/
def delete_post (posts : List Post) (pid : Nat) : Bool × List Post :=
  let remaining := posts.filter (fun p => p.id ≠ pid)
  if remaining.length < posts.length then (true, remaining) else (false, posts)

/-- `PostManager.publish_post` (Streamlit variant): the first post with the
given id gets status `published`, a synthetic Facebook id
`fb_{id}_{timestamp}`, a bumped `updated_time` and four simulated
engagement numbers (the `random.randint` draws are passed in as
`likes`, `comments`, `shares`, `views`).  Note: the code has no guard
against the post being already published. -/
def publish_post (posts : List Post) (pid : Nat) (now : Nat)
    (likes comments shares views : Nat) : Bool × List Post :=
  match posts with
  | [] => (false, [])
  | p :: rest =>
    if p.id = pid then
      (true,
        { p with
          status := "published",
          facebook_post_id := some ("fb_" ++ toString pid ++ "_" ++ toString now),
          updated_time := now,
          engagement_stats :=
            [("likes", likes), ("comments", comments),
             ("shares", shares), ("views", views)] } :: rest)
    else
      let r := publish_post rest pid now likes comments shares views
      (r.1, p :: r.2)

/-! ### The FastAPI variant (`app/main.py`)

`test_posts` is a dict keyed by the post id; we model it as a list of posts
whose `id` fields play the role of the keys (a Python dict has at most one
entry per key).  Lookup is first-match. -/

/-- Dict lookup `test_posts[post_id]`, first post with the matching id. -/
def findPost (posts : List Post) (pid : Nat) : Option Post :=
  posts.find? (fun p => p.id = pid)

/-- Outcome of the API `publish_post` endpoint: HTTP 404, the
`success=False` "already published" response, or success carrying the new
Facebook post id. -/
inductive PublishOutcome where
  | notFound
  | alreadyPublished
  | ok (fb_id : String)
deriving DecidableEq, Repr

/-- `POST /posts/{id}/publish` in `app/main.py`: 404 when the id is absent;
`success=False` leaving the record untouched when its status is already
`published`; otherwise set status to `published`, assign
`fb_{id}_{timestamp}` and bump `updated_time`. -/
def publish_post_api (posts : List Post) (pid : Nat) (now : Nat) :
    PublishOutcome × List Post :=
  match findPost posts pid with
  | none => (.notFound, posts)
  | some p =>
    if p.status = "published" then
      (.alreadyPublished, posts)
    else
      let fb := "fb_" ++ toString pid ++ "_" ++ toString now
      (.ok fb,
        posts.map (fun q =>
          if q.id = pid then
            { q with status := "published", facebook_post_id := some fb,
                     updated_time := now }
          else q))

/-- `POST /posts` in `app/main.py`: `new_id = max(test_posts.keys()) + 1 if
test_posts else 1`, both timestamps stamped with the current time. -/
def create_post_api (posts : List Post) (title content status : String)
    (scheduled_time : Option String) (now : Nat) : Post × List Post :=
  let new_id := match posts with
    | [] => 1
    | _ => (posts.map Post.id).foldl Nat.max 0 + 1
  let post : Post :=
    { id := new_id, title := title, content := content, status := status,
      scheduled_time := scheduled_time, created_time := now,
      updated_time := now }
  (post, posts ++ [post])

/-- `PUT /posts/{id}` in `app/main.py`: 404 (here `false`, store untouched)
when the id is absent; otherwise apply the non-null request fields to the
stored record and bump `updated_time`. -/
def update_post_api (posts : List Post) (pid : Nat) (u : PostUpdate)
    (now : Nat) : Bool × List Post :=
  match findPost posts pid with
  | none => (false, posts)
  | some _ =>
    (true, posts.map (fun q => if q.id = pid then applyUpdate q u now else q))

/-- `DELETE /posts/{id}` in `app/main.py`: 404 (here `false`) when the id is
absent; otherwise `test_posts.pop(post_id)` removes that entry. -/
def delete_post_api (posts : List Post) (pid : Nat) : Bool × List Post :=
  match findPost posts pid with
  | none => (false, posts)
  | some _ => (true, posts.filter (fun p => p.id ≠ pid))

/-! ### JSON persistence (`save_posts` / `load_posts`)

The store is one JSON document: an array of objects, one per post, written
with `json.dump([post.model_dump() for post in posts])` and read back with
`[Post(**post_data) for post_data in data]`.  We model the JSON values that
can appear in this document. -/

/-- JSON values as they occur in the posts document. -/
inductive Json where
  | null
  | str (s : String)
  | num (n : Nat)
  | arr (elems : List Json)
  | obj (fields : List (String × Json))
deriving Repr

/-- Dump an optional string the way pydantic's `model_dump` does:
`None` becomes JSON `null`. -/
def dumpOptStr : Option String → Json
  | none => .null
  | some s => .str s

/-- `Post.model_dump()`: every declared field is emitted. -/
def model_dump (p : Post) : Json :=
  .obj [("id", .num p.id),
        ("title", .str p.title),
        ("content", .str p.content),
        ("status", .str p.status),
        ("scheduled_time", dumpOptStr p.scheduled_time),
        ("created_time", .num p.created_time),
        ("updated_time", .num p.updated_time),
        ("facebook_post_id", dumpOptStr p.facebook_post_id),
        ("engagement_stats", .obj (p.engagement_stats.map
          (fun kv => (kv.1, .num kv.2))))]

/-- `PostManager.save_posts`: serialize the whole collection. -/
def save_posts (posts : List Post) : Json :=
  .arr (posts.map model_dump)

/-- Look a key up in a JSON object's field list (first match, as in a
Python dict built from unique keys). -/
def getField (fields : List (String × Json)) (k : String) : Option Json :=
  (fields.find? (fun kv => kv.1 = k)).map (fun kv => kv.2)

/-- Read a JSON value as a number. -/
def asNat : Json → Option Nat
  | .num n => some n
  | _ => none

/-- Read a JSON value as a string. -/
def asStr : Json → Option String
  | .str s => some s
  | _ => none

/-- Read a JSON value as an optional string (`null` ↦ `None`). -/
def asOptStr : Json → Option (Option String)
  | .null => some none
  | .str s => some (some s)
  | _ => none

/-- Read an object's fields as engagement-stats entries, in order; any
non-numeric value fails the whole record. -/
def statsFields : List (String × Json) → Option (List (String × Nat))
  | [] => some []
  | (k, v) :: rest =>
    match asNat v, statsFields rest with
    | some n, some tail => some ((k, n) :: tail)
    | _, _ => none

/-- Read a JSON object as an engagement-stats mapping. -/
def asStats : Json → Option (List (String × Nat))
  | .obj fields => statsFields fields
  | _ => none

/-- Read an optional field, falling back to the pydantic default when the
key is absent. -/
def fieldOr {α : Type} (fields : List (String × Json)) (k : String)
    (read : Json → Option α) (dflt : α) : Option α :=
  match getField fields k with
  | none => some dflt
  | some j => read j

/-- `Post(**post_data)`: pydantic validation of one record.  The required
fields must be present with the right type; optional fields fall back to
their declared defaults. -/
def parsePost (j : Json) : Option Post :=
  match j with
  | .obj fields => do
    let id ← getField fields "id" >>= asNat
    let title ← getField fields "title" >>= asStr
    let content ← getField fields "content" >>= asStr
    let status ← fieldOr fields "status" asStr "draft"
    let scheduled_time ← fieldOr fields "scheduled_time" asOptStr none
    let created_time ← getField fields "created_time" >>= asNat
    let updated_time ← getField fields "updated_time" >>= asNat
    let facebook_post_id ← fieldOr fields "facebook_post_id" asOptStr none
    let engagement_stats ← fieldOr fields "engagement_stats" asStats []
    pure { id := id, title := title, content := content, status := status,
           scheduled_time := scheduled_time, created_time := created_time,
           updated_time := updated_time, facebook_post_id := facebook_post_id,
           engagement_stats := engagement_stats }
  | _ => none

/-- Validate every element of the loaded array, in order; any invalid
record fails the whole load. -/
def parsePosts : List Json → Option (List Post)
  | [] => some []
  | j :: rest =>
    match parsePost j, parsePosts rest with
    | some p, some tail => some (p :: tail)
    | _, _ => none

/-- `PostManager.load_posts`: a missing file (`none`) yields the empty
collection, and so does any document that fails validation (the code shows
an error banner and returns `[]`). -/
def load_posts (file : Option Json) : List Post :=
  match file with
  | none => []
  | some (.arr elems) =>
    match parsePosts elems with
    | some posts => posts
    | none => []
  | some _ => []

/-! ### `GET /posts` pagination (`app/main.py`) -/

/-- Does `hay` begin with `needle`? -/
def leadsWith : List Char → List Char → Bool
  | [], _ => true
  | _ :: _, [] => false
  | a :: as, b :: bs => a = b && leadsWith as bs

/-- Does `needle` occur contiguously inside `hay`? -/
def containsChars (needle hay : List Char) : Bool :=
  leadsWith needle hay ||
    match hay with
    | [] => false
    | _ :: t => containsChars needle t

/-- Python's substring test `needle in hay` on strings. -/
def pyInStr (needle hay : String) : Bool :=
  containsChars needle.data hay.data

/-- Clamp one Python slice index: negative indices count from the end and
clamp at 0; non-negative ones clamp at the length. -/
def pySliceIdx (n : Nat) (i : Int) : Nat :=
  if i < 0 then ((n : Int) + i).toNat
  else if i ≤ (n : Int) then i.toNat else n

/-- Python's `l[start:stop]` (step 1). -/
def pySlice {α : Type} (l : List α) (start stop : Int) : List α :=
  let s := pySliceIdx l.length start
  let e := pySliceIdx l.length stop
  (l.drop s).take (e - s)

/-- The status/search filtering that `get_posts` applies before paginating.
Both query parameters are skipped when falsy (absent or the empty
string), exactly as `if status:` / `if search:` do. -/
def filteredPosts (store : List Post) (status_q search_q : Option String) :
    List Post :=
  let byStatus := match status_q with
    | some s => if s = "" then store else store.filter (fun p => p.status = s)
    | none => store
  match search_q with
  | some s =>
    if s = "" then byStatus
    else byStatus.filter (fun p =>
      pyInStr s.toLower p.title.toLower || pyInStr s.toLower p.content.toLower)
  | none => byStatus

/-- The `pagination` object of the `GET /posts` response. -/
structure Pagination where
  current_page : Int
  per_page : Int
  total : Nat
  pages : Int
deriving DecidableEq, Repr

/-- The `data` part of a successful `GET /posts` response. -/
structure PostListData where
  posts : List Post
  pagination : Pagination
deriving Repr

/-- Insert into an already sorted list, keeping insertion order on equal
keys. -/
def insertSorted {α : Type} (le : α → α → Bool) (x : α) : List α → List α
  | [] => [x]
  | y :: ys => if le x y then x :: y :: ys else y :: insertSorted le x ys

/-- A stable sort (the semantics of Python's `list.sort(key=..)`). -/
def stableSort {α : Type} (le : α → α → Bool) : List α → List α
  | [] => []
  | x :: xs => insertSorted le x (stableSort le xs)

/-- `GET /posts`: filter by status and search, sort by `created_time`
descending (Python's stable sort), slice out the requested page with
Python slice semantics, and report `total`/`pages` over the whole filtered
collection (`pages` uses Python floor division `//`). -/
def get_posts (store : List Post) (page limit : Int)
    (status_q search_q : Option String) : PostListData :=
  let filtered := filteredPosts store status_q search_q
  let sorted := stableSort (fun a b => b.created_time ≤ a.created_time) filtered
  let start_index := (page - 1) * limit
  let end_index := start_index + limit
  { posts := pySlice sorted start_index end_index,
    pagination :=
      { current_page := page, per_page := limit,
        total := filtered.length,
        pages := Int.fdiv ((filtered.length : Int) + limit - 1) limit } }

/-! ### The AI generation pipeline (`ai_post_generator.py`)

Each step receives the outcome of its external service call as an
`Except String String`: `.ok r` is the response content, `.error e` the
message of the exception the call raised.  The engagement step's
`json.loads` is a parameter `parseJson` returning `none` on a
`JSONDecodeError`. -/

/-- `PostGenerationRequest` with its pydantic defaults. -/
structure PostGenerationRequest where
  topic : String
  target_audience : String := "一般大眾"
  post_type : String := "推廣"
  tone : String := "友善親切"
  include_hashtags : Bool := true
  include_emoji : Bool := true
  max_length : Nat := 300
  generate_image : Bool := false
  image_style : String := "現代簡約"
deriving DecidableEq, Repr

/-- Engagement scores: metric name mapped to a (rational) numeric score. -/
abbrev EngagementScores := List (String × ℚ)

/-- The mutable `AIPostState` threaded through the workflow. -/
structure AIPostState where
  request : PostGenerationRequest
  generated_content : String := ""
  generated_title : String := ""
  hashtags : List String := []
  optimization_tips : List String := []
  engagement_prediction : EngagementScores := []
  image_prompt : Option String := none
  image_url : Option String := none
  image_description : Option String := none
  errors : List String := []
deriving Repr

/-- Outcome of one external service call. -/
abbrev LLMResult := Except String String

/-- `PostContentGenerator.generate_title`: store the trimmed response; on
any exception append an error and fall back to a title built from the
topic. -/
def generate_title (resp : LLMResult) (s : AIPostState) : AIPostState :=
  match resp with
  | .ok content => { s with generated_title := content.trim }
  | .error e =>
    { s with errors := s.errors ++ ["標題生成失敗: " ++ e],
             generated_title := "關於" ++ s.request.topic ++ "的精彩內容" }

/-- `PostContentGenerator.generate_content`: same pattern, templated
fallback sentence. -/
def generate_content (resp : LLMResult) (s : AIPostState) : AIPostState :=
  match resp with
  | .ok content => { s with generated_content := content.trim }
  | .error e =>
    { s with errors := s.errors ++ ["內容生成失敗: " ++ e],
             generated_content := "分享關於" ++ s.request.topic ++ "的精彩內容..." }

/-- Python's `tag.startswith('#')`. -/
def startsWithHash (s : String) : Bool :=
  match s.data with
  | [] => false
  | c :: _ => c = '#'

/-- `PostContentGenerator.generate_hashtags`: skipped (empty list, no
error) when the request disables hashtags; otherwise split the response on
commas, trim each entry and make sure it carries a leading `#`; on any
exception fall back to the single tag `#topic` and append an error. -/
def generate_hashtags (resp : LLMResult) (s : AIPostState) : AIPostState :=
  if !s.request.include_hashtags then
    { s with hashtags := [] }
  else
    match resp with
    | .ok content =>
      let hashtags := (content.trim.splitOn ",").map String.trim
      let hashtags := hashtags.map
        (fun tag => if startsWithHash tag then tag else "#" ++ tag)
      { s with hashtags := hashtags }
    | .error e =>
      { s with errors := s.errors ++ ["標籤生成失敗: " ++ e],
               hashtags := ["#" ++ s.request.topic] }

/-- `ImageGenerator.generate_image_prompt`: skipped when image generation
is disabled; otherwise store the trimmed response, falling back to
`Beautiful {topic} illustration` with an error on any exception. -/
def generate_image_prompt (resp : LLMResult) (s : AIPostState) : AIPostState :=
  if !s.request.generate_image then s
  else
    match resp with
    | .ok content => { s with image_prompt := some content.trim }
    | .error e =>
      { s with errors := s.errors ++ ["圖像提示詞生成失敗: " ++ e],
               image_prompt := some ("Beautiful " ++ s.request.topic ++ " illustration") }

/-- Python truthiness of an optional string: `None` and `""` are falsy. -/
def falsyOptStr : Option String → Bool
  | none => true
  | some s => s = ""

/-- `ImageGenerator.generate_image`: skipped when image generation is
disabled or no (truthy) image prompt is present; an absent OpenAI client
appends an error; a failing generation or download call appends an error;
only a 200 download stores the file path and description. -/
def generate_image (hasClient : Bool) (imageResp : Except String String)
    (downloadStatus : Nat) (savedPath : String) (s : AIPostState) :
    AIPostState :=
  if !s.request.generate_image || falsyOptStr s.image_prompt then s
  else if !hasClient then
    { s with errors := s.errors ++ ["圖像生成需要 OpenAI API Key"] }
  else
    match imageResp with
    | .error e => { s with errors := s.errors ++ ["圖像生成失敗: " ++ e] }
    | .ok _ =>
      if downloadStatus = 200 then
        { s with image_url := some savedPath,
                 image_description := s.image_prompt }
      else
        { s with errors := s.errors ++ ["圖像下載失敗"] }

/-- The default scores substituted when the engagement response is not
valid JSON (`json.JSONDecodeError` branch). -/
def parseFailureScores : EngagementScores :=
  [("likes", 6), ("comments", 5), ("shares", 9/2), ("clicks", 13/2),
   ("overall", 11/2)]

/-- The default scores substituted when the engagement service call itself
raises (outer `except` branch). -/
def exceptionScores : EngagementScores :=
  [("likes", 5), ("comments", 5), ("shares", 5), ("clicks", 5),
   ("overall", 5)]

/-- `EngagementPredictor.predict_engagement`: parse the trimmed response as
JSON; a parse failure silently substitutes `parseFailureScores`; an
exception from the call appends an error and substitutes
`exceptionScores`. -/
def predict_engagement (parseJson : String → Option EngagementScores)
    (resp : LLMResult) (s : AIPostState) : AIPostState :=
  match resp with
  | .ok content =>
    match parseJson content.trim with
    | some engagement_data => { s with engagement_prediction := engagement_data }
    | none => { s with engagement_prediction := parseFailureScores }
  | .error e =>
    { s with errors := s.errors ++ ["互動預測失敗: " ++ e],
             engagement_prediction := exceptionScores }

/-- The static 3-item fallback of the tips step. -/
def fallbackTips : List String :=
  ["考慮在貼文中加入更多互動元素",
   "嘗試在最佳時間發布貼文",
   "使用更吸引人的視覺內容"]

/-- Strip the `i+1.`/`i+1、` numbering from the `i`-th tip line. -/
def stripNumbering (i : Nat) (tip : String) : String :=
  ((tip.replace (toString (i + 1) ++ ".") "").replace
    (toString (i + 1) ++ "、") "").trim

/-- `EngagementPredictor.generate_optimization_tips`: split the response
into non-blank trimmed lines, strip numbering per line, keep at most 5; on
any exception append an error and fall back to `fallbackTips`. -/
def generate_optimization_tips (resp : LLMResult) (s : AIPostState) :
    AIPostState :=
  match resp with
  | .ok content =>
    let tips := ((content.trim.splitOn "\n").map String.trim).filter
      (fun t => t ≠ "")
    let tips := (tips.enum.map (fun it => stripNumbering it.1 it.2))
    { s with optimization_tips := tips.take 5 }
  | .error e =>
    { s with errors := s.errors ++ ["優化建議生成失敗: " ++ e],
             optimization_tips := fallbackTips }

/-- The outcomes of every external interaction one workflow run performs. -/
structure ServiceOutcomes where
  titleResp : LLMResult
  contentResp : LLMResult
  hashtagResp : LLMResult
  imagePromptResp : LLMResult
  hasImageClient : Bool
  imageResp : Except String String
  imageDownloadStatus : Nat
  imageSavedPath : String
  engagementResp : LLMResult
  tipsResp : LLMResult

/-- The compiled LangGraph workflow: the fixed linear chain
title → content → hashtags → image prompt → image → engagement → tips. -/
def workflow_invoke (o : ServiceOutcomes)
    (parseJson : String → Option EngagementScores) (s : AIPostState) :
    AIPostState :=
  generate_optimization_tips o.tipsResp
    (predict_engagement parseJson o.engagementResp
      (generate_image o.hasImageClient o.imageResp o.imageDownloadStatus
        o.imageSavedPath
        (generate_image_prompt o.imagePromptResp
          (generate_hashtags o.hashtagResp
            (generate_content o.contentResp
              (generate_title o.titleResp s))))))

/-- The `generation_metadata` dict: the failure placeholder carries only
the error list and timestamp, so the other two keys are optional. -/
structure GenerationMetadata where
  errors : List String
  generation_time : Nat
  model_used : Option String := none
  image_generated : Option Bool := none
deriving DecidableEq, Repr

/-- The `GeneratedPost` result model. -/
structure GeneratedPost where
  title : String
  content : String
  hashtags : List String := []
  predicted_engagement : EngagementScores := []
  optimization_tips : List String := []
  image_url : Option String := none
  image_description : Option String := none
  generation_metadata : GenerationMetadata
deriving Repr

/-- The fresh state `generate_post` builds before invoking the workflow. -/
def initialState (request : PostGenerationRequest) : AIPostState :=
  { request := request }

/-- `AIPostWorkflow.generate_post`: run the workflow and package the final
state as a `GeneratedPost`; if the orchestration itself throws
(`orchFailure = some e`, e.g. the model could not be constructed) return
the static placeholder post instead. -/
def generate_post (o : ServiceOutcomes)
    (parseJson : String → Option EngagementScores)
    (request : PostGenerationRequest) (model : String) (now : Nat)
    (orchFailure : Option String) : GeneratedPost :=
  match orchFailure with
  | some e =>
    { title := "關於" ++ request.topic ++ "的分享",
      content := "想要分享一些關於" ++ request.topic ++ "的精彩內容...",
      hashtags := ["#" ++ request.topic],
      predicted_engagement := [("overall", 5)],
      optimization_tips := ["請檢查 AI 配置設定"],
      generation_metadata :=
        { errors := ["生成過程發生錯誤: " ++ e], generation_time := now } }
  | none =>
    let final := workflow_invoke o parseJson (initialState request)
    { title := final.generated_title,
      content := final.generated_content,
      hashtags := final.hashtags,
      predicted_engagement := final.engagement_prediction,
      optimization_tips := final.optimization_tips,
      image_url := final.image_url,
      image_description := final.image_description,
      generation_metadata :=
        { errors := final.errors, generation_time := now,
          model_used := some model,
          image_generated := some final.image_url.isSome } }

/-! ### Id allocation over operation sequences -/

/-- The ids present in a store. -/
def postIds (posts : List Post) : List Nat := posts.map Post.id

/-- `max(existing ids)` as Python's `max([p.id for p in posts])` computes
it on a non-empty store (on Nat, folding `max` from 0 is that maximum). -/
def maxId (posts : List Post) : Nat := (posts.map Post.id).foldl Nat.max 0

/-- One store mutation, as quantified over by the id-reuse claim. -/
inductive StoreOp where
  | create (title content status : String) (scheduled_time : Option String)
      (now : Nat)
  | delete (pid : Nat)

/-- Run one operation against the store. -/
def runOp (posts : List Post) : StoreOp → List Post
  | .create t c st sc now => (create_post posts t c st sc now).2
  | .delete pid => (delete_post posts pid).2

/-- Run a sequence of operations against the store. -/
def runOps (posts : List Post) : List StoreOp → List Post
  | [] => posts
  | op :: rest => runOps (runOp posts op) rest

/-- An already-published post, as `publish_post` can encounter it. -/
def pubPost : Post :=
  { id := 1, title := "t", content := "c", status := "published",
    created_time := 0, updated_time := 0,
    facebook_post_id := some "fb_old" }

/-- The five seeded records of `test_posts` in `app/main.py` (timestamps
relative to a load at time 100, in hours: `now-2h`, `now-4h`, `now-1d`,
`now-2d`, `now-3d`; id 5's `updated_time` is `now-6h`). -/
def seedPosts : List Post :=
  [{ id := 1, title := "AI 生成的精彩內容",
     content := "這是一篇由 AI 自動生成的 Facebook 貼文內容，包含豐富的行銷元素和吸引人的文案。",
     status := "published", created_time := 98, updated_time := 98,
     facebook_post_id := some "fb_123456789",
     engagement_stats := [("likes", 156), ("comments", 23), ("shares", 12), ("views", 1250)] },
   { id := 2, title := "自動化發文測試",
     content := "測試自動化發文系統的功能，包含排程發布和即時監控。",
     status := "scheduled", scheduled_time := some "now+2h",
     created_time := 96, updated_time := 96 },
   { id := 3, title := "Facebook 行銷策略",
     content := "分享最新的 Facebook 行銷策略和技巧，幫助提升粉絲互動率。",
     status := "draft", created_time := 76, updated_time := 76 },
   { id := 4, title := "產品發布公告",
     content := "我們很興奮地宣布新產品的正式發布！感謝所有支持我們的用戶。",
     status := "published", created_time := 52, updated_time := 52,
     facebook_post_id := some "fb_987654321",
     engagement_stats := [("likes", 89), ("comments", 15), ("shares", 8), ("views", 892)] },
   { id := 5, title := "週末活動預告",
     content := "本週末將舉辦精彩的線上活動，歡迎大家參與！",
     status := "failed", scheduled_time := some "now-6h",
     created_time := 28, updated_time := 94 }]

/-- A run in which every external call raises (total service outage). -/
def failingOutcomes : ServiceOutcomes :=
  { titleResp := .error "down", contentResp := .error "down",
    hashtagResp := .error "down", imagePromptResp := .error "down",
    hasImageClient := false, imageResp := .error "down",
    imageDownloadStatus := 0, imageSavedPath := "",
    engagementResp := .error "down", tipsResp := .error "down" }

/-- A JSON parser that accepts nothing (any response is malformed). -/
def noParse : String → Option EngagementScores := fun _ => none

/-! ## Theorems -/

theorem foldl_max_init_le (l : List Nat) (a : Nat) : a ≤ l.foldl Nat.max a := by
  induction l generalizing a with
  | nil => simp
  | cons x xs ih => exact le_trans (Nat.le_max_left a x) (ih (Nat.max a x))

theorem mem_le_foldl_max (l : List Nat) (a x : Nat) (hx : x ∈ l) :
    x ≤ l.foldl Nat.max a := by
  induction l generalizing a with
  | nil => cases hx
  | cons y ys ih =>
    rcases List.mem_cons.mp hx with rfl | h
    · exact le_trans (Nat.le_max_right a x) (foldl_max_init_le ys _)
    · exact ih _ h

theorem foldl_max_mem_or (l : List Nat) (a : Nat) :
    l.foldl Nat.max a ∈ l ∨ l.foldl Nat.max a = a := by
  induction l generalizing a with
  | nil => right; rfl
  | cons x xs ih =>
    rcases ih (Nat.max a x) with h | h
    · left; exact List.mem_cons_of_mem _ h
    · rcases Nat.le_total a x with hax | hxa
      · left
        have hx : Nat.max a x = x := Nat.max_eq_right hax
        rw [List.foldl_cons, h, hx]
        exact List.mem_cons_self _ _
      · right
        have hx : Nat.max a x = a := Nat.max_eq_left hxa
        rw [List.foldl_cons, h, hx]

/-- Every id already stored is strictly below the next allocated id. -/
theorem id_lt_get_next_id (posts : List Post) (p : Post) (hp : p ∈ posts) :
    p.id < get_next_id posts := by
  cases posts with
  | nil => cases hp
  | cons q l =>
    have : p.id ≤ ((q :: l).map Post.id).foldl Nat.max 0 :=
      mem_le_foldl_max _ 0 p.id (List.mem_map_of_mem Post.id hp)
    simpa [get_next_id] using Nat.lt_succ_of_le this

theorem get_next_id_not_mem (posts : List Post) :
    get_next_id posts ∉ postIds posts := by
  intro hmem
  rcases List.mem_map.mp hmem with ⟨p, hp, hid⟩
  exact absurd hid (Nat.ne_of_lt (id_lt_get_next_id posts p hp))

theorem postIds_create (posts : List Post) (t c st : String)
    (sc : Option String) (now : Nat) :
    postIds (create_post posts t c st sc now).2 =
      postIds posts ++ [get_next_id posts] := by
  simp [postIds, create_post]

theorem delete_post_store (posts : List Post) (pid : Nat) :
    (delete_post posts pid).2 = posts ∨
      (delete_post posts pid).2 = posts.filter (fun p => p.id ≠ pid) := by
  simp only [delete_post]
  split_ifs <;> simp

/-- Uniqueness of ids is preserved by every create/delete sequence. -/
theorem runOps_ids_nodup (ops : List StoreOp) (posts : List Post)
    (h : (postIds posts).Nodup) : (postIds (runOps posts ops)).Nodup := by
  induction ops generalizing posts with
  | nil => exact h
  | cons op rest ih =>
    refine ih (runOp posts op) ?_
    cases op with
    | create t c st sc now =>
      rw [runOp, postIds_create]
      rw [List.nodup_append_comm]
      exact List.nodup_cons.mpr ⟨get_next_id_not_mem posts, h⟩
    | delete pid =>
      rcases delete_post_store posts pid with hd | hd
      · rw [runOp, hd]; exact h
      · rw [runOp, hd]
        exact h.sublist (List.Sublist.map Post.id (List.filter_sublist posts))

/-- C3 (counterexample): starting from the empty store, create twice
(ids 1 and 2), delete id 2, create again — the new post is assigned id 2,
so an id that was allocated and later deleted is assigned again. -/
theorem deleted_id_reused_counterexample :
    (create_post (create_post [] "A" "B" "draft" none 1).2
        "C" "D" "draft" none 2).1.id = 2 ∧
    (delete_post (create_post (create_post [] "A" "B" "draft" none 1).2
        "C" "D" "draft" none 2).2 2).1 = true ∧
    (create_post (delete_post (create_post (create_post [] "A" "B" "draft"
        none 1).2 "C" "D" "draft" none 2).2 2).2
        "E" "F" "draft" none 3).1.id = 2 := by decide

/-- C3 (amended): over any create/delete sequence the ids in the store stay
pairwise distinct — each `create` allocates `max(existing) + 1`, which is
strictly greater than every stored id — but a deleted id is not
permanently retired: when it exceeds every remaining id (e.g. deleting the
maximum id), the very next create reassigns it. -/
theorem store_ids_unique (posts : List Post) (ops : List StoreOp)
    (h : (postIds posts).Nodup) :
    (postIds (runOps posts ops)).Nodup ∧
    ∀ p ∈ posts, p.id < get_next_id posts :=
  ⟨runOps_ids_nodup ops posts h, fun p hp => id_lt_get_next_id posts p hp⟩

theorem store_ids_unique_witness :
    (postIds [pubPost]).Nodup ∧
    (postIds (runOps [pubPost] [StoreOp.delete 1,
      StoreOp.create "A" "B" "draft" none 7])).Nodup :=
  ⟨by decide,
   (store_ids_unique [pubPost] [StoreOp.delete 1,
      StoreOp.create "A" "B" "draft" none 7] (by decide)).1⟩

/-- C4: `create` returns a post whose id is `max(existing ids) + 1` (1 on
the empty store) and whose created and updated timestamps coincide; the
FastAPI `create_post` allocates the same way. -/
theorem create_post_id_spec (posts : List Post) (title content status : String)
    (sched : Option String) (now : Nat) :
    (posts = [] → (create_post posts title content status sched now).1.id = 1) ∧
    (posts ≠ [] →
      (create_post posts title content status sched now).1.id = maxId posts + 1 ∧
      (∀ q ∈ posts, q.id ≤ maxId posts) ∧ maxId posts ∈ postIds posts) ∧
    (create_post posts title content status sched now).1.created_time =
      (create_post posts title content status sched now).1.updated_time ∧
    (create_post_api posts title content status sched now).1 =
      (create_post posts title content status sched now).1 := by
  refine ⟨fun h => by subst h; rfl, fun h => ?_, rfl, by cases posts <;> rfl⟩
  cases posts with
  | nil => exact absurd rfl h
  | cons q l =>
    refine ⟨by simp [create_post, get_next_id, maxId], ?_, ?_⟩
    · intro q' hq'
      exact mem_le_foldl_max _ 0 _ (List.mem_map_of_mem Post.id hq')
    · rcases foldl_max_mem_or ((q :: l).map Post.id) 0 with hm | h0
      · exact hm
      · have hq : q.id ≤ ((q :: l).map Post.id).foldl Nat.max 0 :=
          mem_le_foldl_max _ 0 _ (by simp)
        have hq0 : q.id = 0 := by omega
        have : maxId (q :: l) = 0 := h0
        rw [this]
        exact List.mem_map.mpr ⟨q, List.mem_cons_self _ _, hq0⟩

theorem create_post_id_spec_witness :
    (([pubPost] : List Post) ≠ []) ∧
    (create_post [pubPost] "A" "B" "draft" none 9).1.id = maxId [pubPost] + 1 :=
  ⟨by decide,
   ((create_post_id_spec [pubPost] "A" "B" "draft" none 9).2.1 (by decide)).1⟩

theorem findPost_none (posts : List Post) (pid : Nat)
    (h : ∀ p ∈ posts, p.id ≠ pid) : findPost posts pid = none := by
  simp only [findPost, List.find?_eq_none, decide_eq_true_eq]
  exact h

theorem findPost_decomp (l1 : List Post) (p : Post) (l2 : List Post)
    (pid : Nat) (hp : p.id = pid) (h1 : ∀ q ∈ l1, q.id ≠ pid) :
    findPost (l1 ++ p :: l2) pid = some p := by
  induction l1 with
  | nil => simp [findPost, hp]
  | cons q l ih =>
    have hq : q.id ≠ pid := h1 q (List.mem_cons_self _ _)
    simpa [findPost, hq] using ih (fun r hr => h1 r (List.mem_cons_of_mem _ hr))

theorem filter_ne_of_all (l : List Post) (pid : Nat)
    (h : ∀ p ∈ l, p.id ≠ pid) : l.filter (fun p => p.id ≠ pid) = l := by
  rw [List.filter_eq_self]
  intro a ha
  simp [h a ha]

theorem map_keep_of_ne (l : List Post) (pid : Nat) (g : Post → Post)
    (h : ∀ q ∈ l, q.id ≠ pid) :
    l.map (fun q => if q.id = pid then g q else q) = l := by
  induction l with
  | nil => rfl
  | cons x xs ih =>
    have hx : x.id ≠ pid := h x (List.mem_cons_self _ _)
    simp [hx, ih (fun r hr => h r (List.mem_cons_of_mem _ hr))]

theorem map_update_decomp (l1 : List Post) (p : Post) (l2 : List Post)
    (pid : Nat) (g : Post → Post) (hp : p.id = pid)
    (h1 : ∀ q ∈ l1, q.id ≠ pid) (h2 : ∀ q ∈ l2, q.id ≠ pid) :
    (l1 ++ p :: l2).map (fun q => if q.id = pid then g q else q) =
      l1 ++ g p :: l2 := by
  rw [List.map_append, map_keep_of_ne l1 pid g h1, List.map_cons,
    map_keep_of_ne l2 pid g h2, if_pos hp]

theorem update_post_not_found (posts : List Post) (pid : Nat) (u : PostUpdate)
    (now : Nat) (h : ∀ p ∈ posts, p.id ≠ pid) :
    update_post posts pid u now = (false, posts) := by
  induction posts with
  | nil => rfl
  | cons q l ih =>
    have hq : q.id ≠ pid := h q (List.mem_cons_self _ _)
    simp [update_post, hq, ih (fun r hr => h r (List.mem_cons_of_mem _ hr))]

theorem update_post_found (l1 : List Post) (p : Post) (l2 : List Post)
    (pid : Nat) (u : PostUpdate) (now : Nat) (hp : p.id = pid)
    (h1 : ∀ q ∈ l1, q.id ≠ pid) :
    update_post (l1 ++ p :: l2) pid u now =
      (true, l1 ++ applyUpdate p u now :: l2) := by
  induction l1 with
  | nil => simp [update_post, hp]
  | cons q l ih =>
    have hq : q.id ≠ pid := h1 q (List.mem_cons_self _ _)
    simp [update_post, hq, ih (fun r hr => h1 r (List.mem_cons_of_mem _ hr))]

theorem publish_post_not_found (posts : List Post) (pid now a b c d : Nat)
    (h : ∀ p ∈ posts, p.id ≠ pid) :
    publish_post posts pid now a b c d = (false, posts) := by
  induction posts with
  | nil => rfl
  | cons q l ih =>
    have hq : q.id ≠ pid := h q (List.mem_cons_self _ _)
    simp [publish_post, hq, ih (fun r hr => h r (List.mem_cons_of_mem _ hr))]

theorem publish_post_found (l1 : List Post) (p : Post) (l2 : List Post)
    (pid now a b c d : Nat) (hp : p.id = pid)
    (h1 : ∀ q ∈ l1, q.id ≠ pid) :
    publish_post (l1 ++ p :: l2) pid now a b c d =
      (true, l1 ++ { p with
        status := "published",
        facebook_post_id := some ("fb_" ++ toString pid ++ "_" ++ toString now),
        updated_time := now,
        engagement_stats := [("likes", a), ("comments", b), ("shares", c),
          ("views", d)] } :: l2) := by
  induction l1 with
  | nil => simp [publish_post, hp]
  | cons q l ih =>
    have hq : q.id ≠ pid := h1 q (List.mem_cons_self _ _)
    simp [publish_post, hq, ih (fun r hr => h1 r (List.mem_cons_of_mem _ hr))]

/-- C8: deleting an absent id fails and leaves the store untouched (both
variants); deleting a present id succeeds, removes exactly that post and
keeps every other post, shrinking the store by one. -/
theorem delete_post_spec (posts : List Post) (pid : Nat) :
    ((∀ p ∈ posts, p.id ≠ pid) →
      delete_post posts pid = (false, posts) ∧
      delete_post_api posts pid = (false, posts)) ∧
    (∀ l1 p l2, posts = l1 ++ p :: l2 → p.id = pid →
      (∀ q ∈ l1, q.id ≠ pid) → (∀ q ∈ l2, q.id ≠ pid) →
      delete_post posts pid = (true, l1 ++ l2) ∧
      delete_post_api posts pid = (true, l1 ++ l2) ∧
      (l1 ++ l2).length + 1 = posts.length) := by
  constructor
  · intro h
    constructor
    · simp only [delete_post]
      rw [filter_ne_of_all posts pid h]
      simp
    · simp [delete_post_api, findPost_none posts pid h]
  · intro l1 p l2 h0 hp h1 h2
    subst h0
    have hfil : (l1 ++ p :: l2).filter (fun q => q.id ≠ pid) = l1 ++ l2 := by
      rw [List.filter_append, filter_ne_of_all l1 pid h1,
        List.filter_cons_of_neg, filter_ne_of_all l2 pid h2]
      simp [hp]
    have hlen : (l1 ++ l2).length < (l1 ++ p :: l2).length := by
      simp [List.length_append]
    refine ⟨?_, ?_, by simp [List.length_append]; omega⟩
    · simp only [delete_post]
      rw [hfil, if_pos hlen]
    · simp only [delete_post_api, findPost_decomp l1 p l2 pid hp h1]
      rw [hfil]

theorem delete_post_spec_witness :
    delete_post [pubPost] 1 = (true, []) ∧
    delete_post_api [pubPost] 1 = (true, []) ∧
    ([] : List Post).length + 1 = [pubPost].length :=
  (delete_post_spec [pubPost] 1).2 [] pubPost [] rfl (by decide)
    (by simp) (by simp)

/-- C7: updating an absent id fails and leaves the store untouched (both
variants); updating a present id succeeds, applies exactly the supplied
non-null fields to that post, bumps only `updated_time`, keeps
`created_time`, `id`, `facebook_post_id` and `engagement_stats`, keeps
every unsupplied field, and leaves every other post unchanged. -/
theorem update_post_spec (posts : List Post) (pid : Nat) (u : PostUpdate)
    (now : Nat) :
    ((∀ p ∈ posts, p.id ≠ pid) →
      update_post posts pid u now = (false, posts) ∧
      update_post_api posts pid u now = (false, posts)) ∧
    (∀ l1 p l2, posts = l1 ++ p :: l2 → p.id = pid →
      (∀ q ∈ l1, q.id ≠ pid) → (∀ q ∈ l2, q.id ≠ pid) →
      update_post posts pid u now = (true, l1 ++ applyUpdate p u now :: l2) ∧
      update_post_api posts pid u now =
        (true, l1 ++ applyUpdate p u now :: l2)) ∧
    (∀ p : Post,
      (applyUpdate p u now).created_time = p.created_time ∧
      (applyUpdate p u now).updated_time = now ∧
      (applyUpdate p u now).id = p.id ∧
      (applyUpdate p u now).facebook_post_id = p.facebook_post_id ∧
      (applyUpdate p u now).engagement_stats = p.engagement_stats ∧
      (applyUpdate p u now).title = u.title.getD p.title ∧
      (applyUpdate p u now).content = u.content.getD p.content ∧
      (applyUpdate p u now).status = u.status.getD p.status ∧
      (u.title = none → (applyUpdate p u now).title = p.title) ∧
      (u.content = none → (applyUpdate p u now).content = p.content) ∧
      (u.status = none → (applyUpdate p u now).status = p.status) ∧
      (u.scheduled_time = none →
        (applyUpdate p u now).scheduled_time = p.scheduled_time)) := by
  refine ⟨fun h => ⟨update_post_not_found posts pid u now h, ?_⟩,
    fun l1 p l2 h0 hp h1 h2 => ?_, fun p => ?_⟩
  · simp [update_post_api, findPost_none posts pid h]
  · subst h0
    refine ⟨update_post_found l1 p l2 pid u now hp h1, ?_⟩
    simp [update_post_api, findPost_decomp l1 p l2 pid hp h1,
      map_update_decomp l1 p l2 pid (fun q => applyUpdate q u now) hp h1 h2]
  · refine ⟨rfl, rfl, rfl, rfl, rfl, rfl, rfl, rfl, ?_, ?_, ?_, ?_⟩ <;>
      intro h <;> simp [applyUpdate, h]

theorem update_post_spec_witness :
    update_post [pubPost] 1 { title := some "T" } 9 =
      (true, [applyUpdate pubPost { title := some "T" } 9]) ∧
    (applyUpdate pubPost { title := some "T" } 9).created_time =
      pubPost.created_time :=
  ⟨((update_post_spec [pubPost] 1 { title := some "T" } 9).2.1 [] pubPost []
      rfl (by decide) (by simp) (by simp)).1,
   ((update_post_spec [pubPost] 1 { title := some "T" } 9).2.2 pubPost).1⟩

/-- C1 (counterexample): in the Streamlit variant, publishing the
already-published post `pubPost` returns success (the claim says failure)
and replaces its `facebook_post_id`. -/
theorem publish_already_published_counterexample :
    pubPost.status = "published" ∧
    (publish_post [pubPost] 1 5 1 2 3 4).1 = true ∧
    (publish_post [pubPost] 1 5 1 2 3 4).2.map Post.facebook_post_id =
      [some "fb_1_5"] ∧
    pubPost.facebook_post_id = some "fb_old" := by decide

/-- C1 (amended): the FastAPI `publish_post` behaves as claimed — failure
(`alreadyPublished`) with the store untouched on an already-published post,
success with status `published`, a non-null `fb_{id}_{timestamp}` external
id and a bumped `updated_time` on any other status.  The Streamlit
`publish_post` has no such guard: it succeeds on any stored post, whatever
its status (re-assigning `facebook_post_id` even when already published),
and fails only for an absent id. -/
theorem publish_post_spec (posts : List Post) (pid now a b c d : Nat) :
    ((∀ p ∈ posts, p.id ≠ pid) →
      publish_post posts pid now a b c d = (false, posts) ∧
      publish_post_api posts pid now = (PublishOutcome.notFound, posts)) ∧
    (∀ p, findPost posts pid = some p → p.status = "published" →
      publish_post_api posts pid now = (PublishOutcome.alreadyPublished, posts)) ∧
    (∀ l1 p l2, posts = l1 ++ p :: l2 → p.id = pid →
      (∀ q ∈ l1, q.id ≠ pid) → (∀ q ∈ l2, q.id ≠ pid) →
      (p.status ≠ "published" →
        publish_post_api posts pid now =
          (PublishOutcome.ok ("fb_" ++ toString pid ++ "_" ++ toString now),
           l1 ++ { p with
             status := "published",
             facebook_post_id :=
               some ("fb_" ++ toString pid ++ "_" ++ toString now),
             updated_time := now } :: l2)) ∧
      publish_post posts pid now a b c d =
        (true, l1 ++ { p with
          status := "published",
          facebook_post_id :=
            some ("fb_" ++ toString pid ++ "_" ++ toString now),
          updated_time := now,
          engagement_stats := [("likes", a), ("comments", b), ("shares", c),
            ("views", d)] } :: l2)) := by
  refine ⟨fun h => ⟨publish_post_not_found posts pid now a b c d h, ?_⟩,
    fun p hfind hstat => ?_, fun l1 p l2 h0 hp h1 h2 => ?_⟩
  · simp [publish_post_api, findPost_none posts pid h]
  · simp [publish_post_api, hfind, hstat]
  · subst h0
    refine ⟨fun hstat => ?_, publish_post_found l1 p l2 pid now a b c d hp h1⟩
    simp only [publish_post_api, findPost_decomp l1 p l2 pid hp h1]
    rw [if_neg hstat, map_update_decomp l1 p l2 pid _ hp h1 h2]

theorem publish_post_spec_witness :
    publish_post_api [pubPost] 1 5 = (PublishOutcome.alreadyPublished, [pubPost]) ∧
    (publish_post [pubPost] 1 5 1 2 3 4).1 = true :=
  ⟨(publish_post_spec [pubPost] 1 5 1 2 3 4).2.1 pubPost (by decide) (by decide),
   by
    have h := ((publish_post_spec [pubPost] 1 5 1 2 3 4).2.2 [] pubPost []
      rfl (by decide) (by simp) (by simp)).2
    rw [h]⟩

theorem statsFields_roundtrip (l : List (String × Nat)) :
    statsFields (l.map (fun kv => (kv.1, Json.num kv.2))) = some l := by
  induction l with
  | nil => rfl
  | cons kv rest ih => simp [statsFields, asNat, ih]

theorem parsePost_model_dump (p : Post) : parsePost (model_dump p) = some p := by
  cases p with
  | mk i t c st sc ct ut fb es =>
    have h := statsFields_roundtrip es
    cases sc <;> cases fb <;>
      simp [parsePost, model_dump, getField, fieldOr, asNat, asStr, asOptStr,
        asStats, dumpOptStr, List.find?, h]

/-- C9: saving any collection of posts and loading it back yields the same
collection, field for field — in particular the same number of posts. -/
theorem save_load_roundtrip (posts : List Post) :
    load_posts (some (save_posts posts)) = posts ∧
    (load_posts (some (save_posts posts))).length = posts.length := by
  have hparse : parsePosts (posts.map model_dump) = some posts := by
    induction posts with
    | nil => rfl
    | cons p rest ih => simp [parsePosts, parsePost_model_dump p, ih]
  have : load_posts (some (save_posts posts)) = posts := by
    simp [load_posts, save_posts, hparse]
  exact ⟨this, by rw [this]⟩

theorem startsWithHash_hash_append (t : String) :
    startsWithHash ("#" ++ t) = true := by
  cases t with
  | mk data => rfl

/-- C5: disabled hashtags yield the empty list with no error; on a
successful call every produced tag starts with `#` (service entries
without a leading `#` get one prefixed) and no error is appended; on a
failed call the output is the single tag `#topic` and an error is
appended. -/
theorem generate_hashtags_spec (s : AIPostState) (resp : LLMResult) :
    (s.request.include_hashtags = false →
      (generate_hashtags resp s).hashtags = [] ∧
      (generate_hashtags resp s).errors = s.errors) ∧
    (s.request.include_hashtags = true →
      (∀ txt, resp = .ok txt →
        (generate_hashtags resp s).hashtags =
          ((txt.trim.splitOn ",").map String.trim).map
            (fun tag => if startsWithHash tag then tag else "#" ++ tag) ∧
        (∀ tag ∈ (generate_hashtags resp s).hashtags,
          startsWithHash tag = true) ∧
        (generate_hashtags resp s).errors = s.errors) ∧
      (∀ e, resp = .error e →
        (generate_hashtags resp s).hashtags = ["#" ++ s.request.topic] ∧
        (generate_hashtags resp s).errors =
          s.errors ++ ["標籤生成失敗: " ++ e])) := by
  constructor
  · intro hb
    simp [generate_hashtags, hb]
  · intro hb
    constructor
    · rintro txt rfl
      refine ⟨by simp [generate_hashtags, hb], ?_, by simp [generate_hashtags, hb]⟩
      intro tag htag
      simp only [generate_hashtags, hb, Bool.not_true, Bool.false_eq_true,
        if_false] at htag
      rcases List.mem_map.mp htag with ⟨x, _, rfl⟩
      by_cases hsw : startsWithHash x
      · simp [hsw]
      · simp [hsw, startsWithHash_hash_append]
    · rintro e rfl
      simp [generate_hashtags, hb]

theorem generate_hashtags_spec_witness :
    (generate_hashtags (Except.error "down")
        (initialState { topic := "t" })).hashtags = ["#" ++ "t"] ∧
    (generate_hashtags (Except.ok "a, #b")
        (initialState { topic := "t" })).errors = [] :=
  ⟨(((generate_hashtags_spec (initialState { topic := "t" })
      (Except.error "down")).2 rfl).2 "down" rfl).1,
   (((generate_hashtags_spec (initialState { topic := "t" })
      (Except.ok "a, #b")).2 rfl).1 "a, #b" rfl).2.2⟩

/-- C6: an exception from the engagement call appends an error and yields
the all-5.0 default scores, while a response that fails JSON parsing
silently yields the distinct {6.0, 5.0, 4.5, 6.5, 5.5} default; both
defaults are non-empty and differ from each other. -/
theorem predict_engagement_spec
    (parseJson : String → Option EngagementScores) (s : AIPostState)
    (resp : LLMResult) :
    (∀ e, resp = .error e →
      (predict_engagement parseJson resp s).engagement_prediction =
        exceptionScores ∧
      (predict_engagement parseJson resp s).errors =
        s.errors ++ ["互動預測失敗: " ++ e] ∧
      (predict_engagement parseJson resp s).engagement_prediction ≠ []) ∧
    (∀ txt, resp = .ok txt → parseJson txt.trim = none →
      (predict_engagement parseJson resp s).engagement_prediction =
        parseFailureScores ∧
      (predict_engagement parseJson resp s).errors = s.errors ∧
      (predict_engagement parseJson resp s).engagement_prediction ≠ []) ∧
    parseFailureScores ≠ exceptionScores := by
  refine ⟨?_, ?_, by decide⟩
  · rintro e rfl
    refine ⟨rfl, rfl, ?_⟩
    simp [predict_engagement, exceptionScores]
  · rintro txt rfl hparse
    refine ⟨?_, ?_, ?_⟩ <;> simp [predict_engagement, hparse, parseFailureScores]

theorem predict_engagement_spec_witness :
    (predict_engagement noParse (Except.error "down")
        (initialState { topic := "t" })).engagement_prediction =
      exceptionScores ∧
    (predict_engagement noParse (Except.ok "oops")
        (initialState { topic := "t" })).engagement_prediction =
      parseFailureScores :=
  ⟨((predict_engagement_spec noParse (initialState { topic := "t" })
      (Except.error "down")).1 "down" rfl).1,
   ((predict_engagement_spec noParse (initialState { topic := "t" })
      (Except.ok "oops")).2.1 "oops" rfl rfl).1⟩

theorem generate_hashtags_frame (resp : LLMResult) (s : AIPostState) :
    (generate_hashtags resp s).request = s.request ∧
    (generate_hashtags resp s).generated_title = s.generated_title ∧
    (generate_hashtags resp s).generated_content = s.generated_content ∧
    ∃ t, (generate_hashtags resp s).errors = s.errors ++ t := by
  unfold generate_hashtags
  cases hb : s.request.include_hashtags
  · exact ⟨rfl, rfl, rfl, [], by simp⟩
  · cases resp with
    | ok txt => exact ⟨rfl, rfl, rfl, [], by simp⟩
    | error e => exact ⟨rfl, rfl, rfl, _, rfl⟩

theorem generate_image_prompt_frame (resp : LLMResult) (s : AIPostState) :
    (generate_image_prompt resp s).request = s.request ∧
    (generate_image_prompt resp s).generated_title = s.generated_title ∧
    (generate_image_prompt resp s).generated_content = s.generated_content ∧
    ∃ t, (generate_image_prompt resp s).errors = s.errors ++ t := by
  unfold generate_image_prompt
  cases hb : s.request.generate_image
  · exact ⟨rfl, rfl, rfl, [], by simp⟩
  · cases resp with
    | ok txt => exact ⟨rfl, rfl, rfl, [], by simp⟩
    | error e => exact ⟨rfl, rfl, rfl, _, rfl⟩

theorem generate_image_frame (hc : Bool) (ir : Except String String)
    (ds : Nat) (fp : String) (s : AIPostState) :
    (generate_image hc ir ds fp s).request = s.request ∧
    (generate_image hc ir ds fp s).generated_title = s.generated_title ∧
    (generate_image hc ir ds fp s).generated_content = s.generated_content ∧
    ∃ t, (generate_image hc ir ds fp s).errors = s.errors ++ t := by
  unfold generate_image
  split_ifs with hskip hclient hds
  · exact ⟨rfl, rfl, rfl, [], by simp⟩
  · exact ⟨rfl, rfl, rfl, _, rfl⟩
  · cases ir with
    | error e => exact ⟨rfl, rfl, rfl, _, rfl⟩
    | ok u => exact ⟨rfl, rfl, rfl, [], by simp⟩
  · cases ir with
    | error e => exact ⟨rfl, rfl, rfl, _, rfl⟩
    | ok u => exact ⟨rfl, rfl, rfl, _, rfl⟩

theorem workflow_invoke_all_errors (o : ServiceOutcomes)
    (parseJson : String → Option EngagementScores) (s : AIPostState)
    (e1 e2 e3 e4 e5 e6 : String)
    (h1 : o.titleResp = .error e1) (h2 : o.contentResp = .error e2)
    (h3 : o.hashtagResp = .error e3) (h4 : o.imagePromptResp = .error e4)
    (h5 : o.engagementResp = .error e5) (h6 : o.tipsResp = .error e6) :
    (workflow_invoke o parseJson s).generated_title =
      "關於" ++ s.request.topic ++ "的精彩內容" ∧
    (workflow_invoke o parseJson s).generated_content =
      "分享關於" ++ s.request.topic ++ "的精彩內容..." ∧
    (workflow_invoke o parseJson s).engagement_prediction = exceptionScores ∧
    (workflow_invoke o parseJson s).optimization_tips = fallbackTips ∧
    (workflow_invoke o parseJson s).errors ≠ [] := by
  unfold workflow_invoke
  rw [h1, h2, h3, h4, h5, h6]
  have h3f := generate_hashtags_frame (Except.error e3)
    (generate_content (Except.error e2) (generate_title (Except.error e1) s))
  have h4f := generate_image_prompt_frame (Except.error e4)
    (generate_hashtags (Except.error e3)
      (generate_content (Except.error e2) (generate_title (Except.error e1) s)))
  have h5f := generate_image_frame o.hasImageClient o.imageResp
    o.imageDownloadStatus o.imageSavedPath
    (generate_image_prompt (Except.error e4)
      (generate_hashtags (Except.error e3)
        (generate_content (Except.error e2) (generate_title (Except.error e1) s))))
  refine ⟨?_, ?_, rfl, rfl, ?_⟩
  · show (generate_image o.hasImageClient o.imageResp o.imageDownloadStatus
      o.imageSavedPath (generate_image_prompt (Except.error e4)
        (generate_hashtags (Except.error e3)
          (generate_content (Except.error e2)
            (generate_title (Except.error e1) s))))).generated_title = _
    rw [h5f.2.1, h4f.2.1, h3f.2.1]
    rfl
  · show (generate_image o.hasImageClient o.imageResp o.imageDownloadStatus
      o.imageSavedPath (generate_image_prompt (Except.error e4)
        (generate_hashtags (Except.error e3)
          (generate_content (Except.error e2)
            (generate_title (Except.error e1) s))))).generated_content = _
    rw [h5f.2.2.1, h4f.2.2.1, h3f.2.2.1]
    rfl
  · show (predict_engagement parseJson (Except.error e5) _).errors ++
      ["優化建議生成失敗: " ++ e6] ≠ []
    simp

theorem fallback_title_ne_empty (topic : String) :
    ("關於" ++ topic ++ "的精彩內容" : String) ≠ "" := by
  intro h
  have hlen := congrArg String.length h
  rw [String.length_append, String.length_append] at hlen
  have h1 : ("關於" : String).length = 2 := rfl
  have h2 : ("的精彩內容" : String).length = 5 := rfl
  have h3 : ("" : String).length = 0 := rfl
  omega

theorem fallback_content_ne_empty (topic : String) :
    ("分享關於" ++ topic ++ "的精彩內容..." : String) ≠ "" := by
  intro h
  have hlen := congrArg String.length h
  rw [String.length_append, String.length_append] at hlen
  have h1 : ("分享關於" : String).length = 4 := rfl
  have h2 : ("的精彩內容..." : String).length = 8 := rfl
  have h3 : ("" : String).length = 0 := rfl
  omega

/-- C2: when every call to the text-generation service raises, the pipeline
still returns a fully-populated result: title and content are the
non-empty deterministic fallbacks built from the request's topic, the
engagement prediction and optimization tips are the default sets, and the
metadata error list is non-empty — no step's failure aborts the later
steps. -/
theorem generate_post_total_failure (o : ServiceOutcomes)
    (parseJson : String → Option EngagementScores)
    (request : PostGenerationRequest) (model : String) (now : Nat)
    (e1 e2 e3 e4 e5 e6 : String)
    (h1 : o.titleResp = .error e1) (h2 : o.contentResp = .error e2)
    (h3 : o.hashtagResp = .error e3) (h4 : o.imagePromptResp = .error e4)
    (h5 : o.engagementResp = .error e5) (h6 : o.tipsResp = .error e6) :
    (generate_post o parseJson request model now none).title =
      "關於" ++ request.topic ++ "的精彩內容" ∧
    (generate_post o parseJson request model now none).title ≠ "" ∧
    (generate_post o parseJson request model now none).content =
      "分享關於" ++ request.topic ++ "的精彩內容..." ∧
    (generate_post o parseJson request model now none).content ≠ "" ∧
    (generate_post o parseJson request model now none).predicted_engagement =
      exceptionScores ∧
    (generate_post o parseJson request model now none).optimization_tips =
      fallbackTips ∧
    (generate_post o parseJson request model now
      none).generation_metadata.errors ≠ [] := by
  obtain ⟨wt, wc, we, wtips, werr⟩ := workflow_invoke_all_errors o parseJson
    (initialState request) e1 e2 e3 e4 e5 e6 h1 h2 h3 h4 h5 h6
  refine ⟨?_, ?_, ?_, ?_, ?_, ?_, ?_⟩
  · show (workflow_invoke o parseJson (initialState request)).generated_title = _
    exact wt
  · show (workflow_invoke o parseJson (initialState request)).generated_title ≠ _
    rw [wt]
    exact fallback_title_ne_empty request.topic
  · show (workflow_invoke o parseJson (initialState request)).generated_content = _
    exact wc
  · show (workflow_invoke o parseJson (initialState request)).generated_content ≠ _
    rw [wc]
    exact fallback_content_ne_empty request.topic
  · exact we
  · exact wtips
  · exact werr

theorem generate_post_total_failure_witness :
    (generate_post failingOutcomes noParse { topic := "t" } "m" 0 none).title =
      "關於" ++ ("t" : String) ++ "的精彩內容" ∧
    (generate_post failingOutcomes noParse { topic := "t" } "m" 0
      none).predicted_engagement = exceptionScores ∧
    (generate_post failingOutcomes noParse { topic := "t" } "m" 0
      none).optimization_tips = fallbackTips :=
  have h := generate_post_total_failure failingOutcomes noParse
    { topic := "t" } "m" 0 "down" "down" "down" "down" "down" "down"
    rfl rfl rfl rfl rfl rfl
  ⟨h.1, h.2.2.2.2.1, h.2.2.2.2.2.1⟩

theorem insertSorted_length {α : Type} (le : α → α → Bool) (x : α)
    (l : List α) : (insertSorted le x l).length = l.length + 1 := by
  induction l with
  | nil => rfl
  | cons y ys ih =>
    unfold insertSorted
    split_ifs <;> simp [ih]

theorem stableSort_length {α : Type} (le : α → α → Bool) (l : List α) :
    (stableSort le l).length = l.length := by
  induction l with
  | nil => rfl
  | cons x xs ih => simp [stableSort, insertSorted_length, ih]

theorem pySliceIdx_le (n : Nat) (i : Int) : pySliceIdx n i ≤ n := by
  unfold pySliceIdx
  split_ifs <;> omega

theorem pySliceIdx_diff_le (n : Nat) (start limit : Int) (h : 0 ≤ limit) :
    pySliceIdx n (start + limit) - pySliceIdx n start ≤ limit.toNat := by
  unfold pySliceIdx
  split_ifs <;> omega

theorem pySlice_length_le {α : Type} (l : List α) (start limit : Int)
    (h : 0 ≤ limit) : (pySlice l start (start + limit)).length ≤ limit.toNat := by
  simp only [pySlice, List.length_take, List.length_drop]
  exact le_trans (Nat.min_le_left _ _)
    (pySliceIdx_diff_le l.length start limit h)

theorem pySlice_beyond {α : Type} (l : List α) (start stop : Int)
    (hs : (l.length : Int) ≤ start) : pySlice l start stop = [] := by
  unfold pySlice pySliceIdx
  split_ifs <;> simp_all <;> omega

theorem pySlice_stop_zero {α : Type} (l : List α) (start : Int) :
    pySlice l start 0 = [] := by
  unfold pySlice pySliceIdx
  split_ifs <;> simp_all

theorem fdiv_ofNat (m n : Nat) :
    Int.fdiv (Int.ofNat m) (Int.ofNat n) = Int.ofNat (m / n) := by
  cases m with
  | zero => rw [Nat.zero_div]; rfl
  | succ m => rfl

theorem pages_ceiling (total limitN : Nat) (h : 1 ≤ limitN) :
    total ≤ limitN * ((total + limitN - 1) / limitN) ∧
    (0 < total → limitN * ((total + limitN - 1) / limitN - 1) < total) := by
  have hpos : 0 < limitN := h
  constructor
  · by_contra hcon
    push_neg at hcon
    have hc : limitN * ((total + limitN - 1) / limitN) =
        ((total + limitN - 1) / limitN) * limitN := Nat.mul_comm _ _
    have hsucc : ((total + limitN - 1) / limitN + 1) * limitN =
        ((total + limitN - 1) / limitN) * limitN + limitN := Nat.succ_mul _ _
    have hstep : ((total + limitN - 1) / limitN + 1) * limitN ≤
        total + limitN - 1 := by omega
    have := (Nat.le_div_iff_mul_le hpos).mpr hstep
    omega
  · intro ht
    rcases Nat.eq_zero_or_pos ((total + limitN - 1) / limitN) with hq0 | hqpos
    · simpa [hq0] using ht
    · have hub : ((total + limitN - 1) / limitN) * limitN ≤
        total + limitN - 1 := Nat.div_mul_le_self _ _
      have hs : ((total + limitN - 1) / limitN - 1) * limitN =
          ((total + limitN - 1) / limitN) * limitN - limitN :=
        Nat.sub_one_mul _ _
      have hc : limitN * ((total + limitN - 1) / limitN - 1) =
          ((total + limitN - 1) / limitN - 1) * limitN := Nat.mul_comm _ _
      omega

/-- C10 (counterexample): at `page = -1, limit = 3` on the seeded store —
a page ≤ 0 — the call does not return an empty posts list: Python's
negative slice indices select a 2-post window. -/
theorem get_posts_negative_page_counterexample :
    (1 : Int) ≤ 3 ∧ (-1 : Int) ≤ 0 ∧
    (get_posts seedPosts (-1) 3 none none).posts ≠ [] ∧
    (get_posts seedPosts (-1) 3 none none).posts.length = 2 := by decide

/-- C10 (amended): with `limit ≥ 1`, `GET /posts` returns at most `limit`
posts; a page past the last one (`page ≥ 1` with `(page-1)*limit` at least
the filtered count) yields an empty list, and so does `page = 0`; but for
`page < 0` Python slice semantics can yield a non-empty window.
`pagination.total` is the full filtered count and `pagination.pages` is
the ceiling of `total / limit`. -/
theorem get_posts_pagination_spec (store : List Post) (page limit : Int)
    (status_q search_q : Option String) (hlim : 1 ≤ limit) :
    (get_posts store page limit status_q search_q).posts.length ≤
      limit.toNat ∧
    (1 ≤ page →
      ((filteredPosts store status_q search_q).length : Int) ≤
        (page - 1) * limit →
      (get_posts store page limit status_q search_q).posts = []) ∧
    (page = 0 → (get_posts store page limit status_q search_q).posts = []) ∧
    (get_posts store page limit status_q search_q).pagination.total =
      (filteredPosts store status_q search_q).length ∧
    (get_posts store page limit status_q search_q).pagination.pages =
      ((((filteredPosts store status_q search_q).length + limit.toNat - 1) /
        limit.toNat : Nat) : Int) ∧
    (filteredPosts store status_q search_q).length ≤
      limit.toNat *
        (((filteredPosts store status_q search_q).length + limit.toNat - 1) /
          limit.toNat) ∧
    (0 < (filteredPosts store status_q search_q).length →
      limit.toNat *
        ((((filteredPosts store status_q search_q).length + limit.toNat - 1) /
          limit.toNat) - 1) <
        (filteredPosts store status_q search_q).length) := by
  obtain ⟨k, rfl⟩ := Int.eq_ofNat_of_zero_le (by omega : (0 : Int) ≤ limit)
  have hk : 1 ≤ k := by omega
  have htoNat : (k : Int).toNat = k := Int.toNat_natCast k
  refine ⟨?_, ?_, ?_, rfl, ?_, ?_, ?_⟩
  · rw [htoNat]
    simpa [get_posts] using pySlice_length_le
      (stableSort (fun a b => b.created_time ≤ a.created_time)
        (filteredPosts store status_q search_q)) ((page - 1) * k) k (by omega)
  · intro hpage hbeyond
    simp only [get_posts]
    refine pySlice_beyond _ _ _ ?_
    rw [stableSort_length]
    exact hbeyond
  · intro hpage
    subst hpage
    simp only [get_posts]
    rw [show ((0 : Int) - 1) * (k : Int) + (k : Int) = 0 by ring]
    exact pySlice_stop_zero _ _
  · simp only [get_posts]
    rw [htoNat]
    have hnum : ((filteredPosts store status_q search_q).length : Int) +
        (k : Int) - 1 =
        (((filteredPosts store status_q search_q).length + k - 1 : Nat) : Int) := by
      omega
    rw [hnum]
    exact fdiv_ofNat _ k
  · rw [htoNat]
    exact (pages_ceiling (filteredPosts store status_q search_q).length k hk).1
  · rw [htoNat]
    exact (pages_ceiling (filteredPosts store status_q search_q).length k hk).2

theorem get_posts_pagination_spec_witness :
    (get_posts seedPosts 1 2 none none).posts.length ≤ (2 : Int).toNat ∧
    (get_posts seedPosts 9 2 none none).posts = [] :=
  ⟨(get_posts_pagination_spec seedPosts 1 2 none none (by decide)).1,
   (get_posts_pagination_spec seedPosts 9 2 none none (by decide)).2.1
     (by decide) (by decide)⟩

end AiFbPost
